import Mathlib

/-!
Shallow embedding of the connection / call-session state machine of
src/src/components/Dialer.tsx (the Dialer React component).

The React useState cells and useRef cells of the component are gathered into
one record, `DialerState`.  Every command handler (connect, disconnect,
dial, hangup, handleKeypad) and every engine event handler registered
in connect (connected, disconnected, registered, unregistered,
registrationFailed, newRTCSession) and in newRTCSession (progress,
confirmed, ended, failed) is translated into a pure function on
`DialerState`.  Commands additionally return the list of requests they issue
to the external JsSIP engine (`EngineCall`), so that claims about the engine
receiving no call are statable.
-/

namespace WebDialer

/-- Connection status union type from Dialer.tsx, lines 8-13. -/
inductive ConnectionStatus where
  | disconnected
  | connecting
  | connected
  | registered
  | registrationFailed
deriving DecidableEq, Repr

/-- Call state union type from Dialer.tsx, line 15. -/
inductive CallState where
  | idle
  | calling
  | inCall
  | terminated
  | failed
deriving DecidableEq, Repr

/-- Shape of the mediaConstraints object of dial, line 148. -/
structure MediaConstraints where
  audio : Bool
  video : Bool
deriving DecidableEq, Repr

/-- Shape of the pcConfig object of dial, lines 149-152. -/
structure PCConfig where
  rtcpMuxPolicy : String
  iceServers : List String
deriving DecidableEq, Repr

/-- Shape of the options object passed to ua.call, lines 146-153; the
eventHandlers field is modelled separately as the session event
functions below. -/
structure CallOptions where
  mediaConstraints : MediaConstraints
  pcConfig : PCConfig
deriving DecidableEq, Repr

/-- Requests issued to the external JsSIP engine by the component. -/
inductive EngineCall where
  | mkSocket (uri : String)
  | mkUA (uri : String) (password : String) (displayName : String)
  | uaStart (ua : Nat)
  | uaStop (ua : Nat)
  | uaCall (ua : Nat) (destination : String) (options : CallOptions)
  | terminate (session : Nat)
  | sendDTMF (session : Nat) (digit : String)
deriving DecidableEq, Repr

/-- Component state: the useState cells of lines 20-27 together with
the two useRef cells uaRef and activeSessionRef of lines 29-30.
Handles are identified by Nat ids; `none` is the null ref. -/
structure DialerState where
  wsUri : String
  sipUri : String
  displayName : String
  password : String
  status : ConnectionStatus
  callState : CallState
  number : String
  logEntries : List String
  uaRef : Option Nat
  activeSession : Option Nat
deriving DecidableEq, Repr

/-- Log update inside addLog, line 33: prepend the message and slice to the
first 20 entries. -/
def pushLog (message : String) (prev : List String) : List String :=
  (message :: prev).take 20

/-- Model of addLog, lines 32-34. -/
def addLog (s : DialerState) (message : String) : DialerState :=
  { s with logEntries := pushLog message s.logEntries }

/-- Model of isConnected, lines 36-39: status is connected or registered.
This is the predicate the spec calls isUsable. -/
def isConnected (s : DialerState) : Bool :=
  s.status = ConnectionStatus.connected || s.status = ConnectionStatus.registered

/-- Model of the JS expression e.cause or-else the literal unknown
(lines 87, 103, 140): a missing or empty cause string is falsy and is
replaced by the literal unknown. -/
def causeOrUnknown (cause : Option String) : String :=
  match cause with
  | none => "unknown"
  | some c => if c = "" then "unknown" else c

/-- Model of connect, lines 48-115.  Argument ctorOk is whether the
WebSocketInterface / UA construction in the try block succeeds;
errMessage is the raised error message in the failing case; newId
identifies the freshly constructed UA handle.  Registering the event
handlers (lines 64-105) mutates nothing; the success path then runs
ua.start, stores the handle in uaRef, sets status to connecting and
logs.  The catch path logs the error and sets status to disconnected. -/
def connect (ctorOk : Bool) (errMessage : String) (newId : Nat)
    (s : DialerState) : DialerState × List EngineCall :=
  if s.wsUri = "" || s.sipUri = "" || s.password = "" then
    (addLog s "Please provide WebSocket URL, SIP URI, and password.", [])
  else if ctorOk then
    (addLog { s with uaRef := some newId, status := ConnectionStatus.connecting }
       "Connecting...",
     [EngineCall.mkSocket s.wsUri,
      EngineCall.mkUA s.sipUri s.password s.displayName,
      EngineCall.uaStart newId])
  else
    (addLog { s with status := ConnectionStatus.disconnected }
       ("Connection error: " ++ errMessage), [])

/-- Model of disconnect, lines 117-123: terminate the active session if
present, stop the UA if present, set status disconnected, set call state
terminated, log.  Neither ref is cleared. -/
def disconnect (s : DialerState) : DialerState × List EngineCall :=
  (addLog
     { s with status := ConnectionStatus.disconnected,
              callState := CallState.terminated }
     "Disconnected from server.",
   (match s.activeSession with
    | some sid => [EngineCall.terminate sid]
    | none => []) ++
   (match s.uaRef with
    | some u => [EngineCall.uaStop u]
    | none => []))

/-- Options literal of dial, lines 146-153. -/
def dialOptions : CallOptions :=
  { mediaConstraints := { audio := true, video := false },
    pcConfig := { rtcpMuxPolicy := "require",
                  iceServers := ["stun:stun.l.google.com:19302"] } }

/-- Model of dial, lines 125-157.  Guard 1: no UA handle or not connected;
guard 2: empty number.  On the success path it issues ua.call with the
number and the options literal and logs; it does not touch callState or
activeSession itself (those change only through engine events). -/
def dial (s : DialerState) : DialerState × List EngineCall :=
  match s.uaRef with
  | none => (addLog s "Connect to the SIP server first.", [])
  | some u =>
    if !(isConnected s) then
      (addLog s "Connect to the SIP server first.", [])
    else if s.number = "" then
      (addLog s "Enter a destination number.", [])
    else
      (addLog s ("Dialing " ++ s.number ++ "..."),
       [EngineCall.uaCall u s.number dialOptions])

/-- Model of hangup, lines 159-164: no-op without a session; otherwise
request termination, set call state terminated, log.  The session ref is
not cleared. -/
def hangup (s : DialerState) : DialerState × List EngineCall :=
  match s.activeSession with
  | none => (s, [])
  | some sid =>
    (addLog { s with callState := CallState.terminated } "Call terminated.",
     [EngineCall.terminate sid])

/-- Model of handleKeypad, lines 166-169: append the digit to the number
and slice to the first 32 characters; forward the digit as DTMF when a
session is held.  JS string slice is take on the character sequence. -/
def handleKeypad (digit : String) (s : DialerState) :
    DialerState × List EngineCall :=
  ({ s with number := String.mk ((s.number.data ++ digit.data).take 32) },
   match s.activeSession with
   | none => []
   | some sid => [EngineCall.sendDTMF sid digit])

/-- Handler of the UA connected event, lines 64-67. -/
def onUAConnected (s : DialerState) : DialerState :=
  addLog { s with status := ConnectionStatus.connected } "Socket connected."

/-- Handler of the UA disconnected event, lines 69-73. -/
def onUADisconnected (s : DialerState) : DialerState :=
  addLog
    { s with status := ConnectionStatus.disconnected,
             callState := CallState.terminated }
    "Socket disconnected."

/-- Handler of the UA registered event, lines 75-78. -/
def onUARegistered (s : DialerState) : DialerState :=
  addLog { s with status := ConnectionStatus.registered }
    "Registered with SIP server."

/-- Handler of the UA unregistered event, lines 80-83. -/
def onUAUnregistered (s : DialerState) : DialerState :=
  addLog { s with status := ConnectionStatus.connected } "Unregistered."

/-- Handler of the UA registrationFailed event, lines 85-88. -/
def onUARegistrationFailed (cause : Option String) (s : DialerState) :
    DialerState :=
  addLog { s with status := ConnectionStatus.registrationFailed }
    ("Registration failed: " ++ causeOrUnknown cause)

/-- Handler of the UA newRTCSession event, lines 90-105: unconditionally
store the session in activeSessionRef and subscribe the session event
handlers below.  No state check, no log, no engine call. -/
def onNewRTCSession (sid : Nat) (s : DialerState) : DialerState :=
  { s with activeSession := some sid }

/-- Handler of the session progress event, line 99. -/
def onSessionProgress (s : DialerState) : DialerState :=
  addLog { s with callState := CallState.calling } "Call in progress..."

/-- Handler of the session confirmed event, line 100. -/
def onSessionConfirmed (s : DialerState) : DialerState :=
  addLog { s with callState := CallState.inCall } "Call confirmed."

/-- Handler of the session ended event, line 101: sets CallState only; the
session ref is not cleared. -/
def onSessionEnded (s : DialerState) : DialerState :=
  addLog { s with callState := CallState.terminated } "Call ended."

/-- Handler of the session failed event, lines 102-104. -/
def onSessionFailed (cause : Option String) (s : DialerState) : DialerState :=
  addLog { s with callState := CallState.failed }
    ("Call failed: " ++ causeOrUnknown cause)

/-- Folding addLog over a list of messages, oldest first: a sequence of
append operations on the activity log. -/
def runLogs (s : DialerState) (messages : List String) : DialerState :=
  messages.foldl addLog s

/-- Initial component state with the default form values of lines 20-27
and empty refs: the state right after mount. -/
def initialState : DialerState :=
  { wsUri := "wss://sip.example.com:7443",
    sipUri := "sip:1001@sip.example.com",
    displayName := "Web Agent",
    password := "",
    status := ConnectionStatus.disconnected,
    callState := CallState.idle,
    number := "",
    logEntries := [],
    uaRef := none,
    activeSession := none }

/-! Helper lemmas shared by several claims. -/

lemma take_append_take {α : Type} (a b : List α) (n : Nat) :
    (a ++ b.take n).take n = (a ++ b).take n := by
  rw [List.take_append_eq_append_take, List.take_append_eq_append_take,
    List.take_take, Nat.min_eq_left (Nat.sub_le n a.length)]

lemma runLogs_cons (s : DialerState) (m : String) (ms : List String) :
    runLogs s (m :: ms) = runLogs (addLog s m) ms := rfl

lemma addLog_logEntries (s : DialerState) (m : String) :
    (addLog s m).logEntries = (m :: s.logEntries).take 20 := rfl

lemma runLogs_logEntries (ms : List String) (s : DialerState) (h : ms ≠ []) :
    (runLogs s ms).logEntries = (ms.reverse ++ s.logEntries).take 20 := by
  induction ms generalizing s with
  | nil => exact absurd rfl h
  | cons m ms ih =>
    rcases eq_or_ne ms [] with hms | hms
    · subst hms
      simp [runLogs, addLog, pushLog]
    · rw [runLogs_cons, ih (addLog s m) hms, addLog_logEntries,
        take_append_take, List.reverse_cons, List.append_assoc]
      rfl

/-- C6: the activity log, driven only by addLog appends from the empty
log, never exceeds 20 entries; after appending 25 messages the stored
sequence equals the last 20 appended messages in newest-first order. -/
theorem activityLog_bounded_newest_first (s : DialerState) (ms : List String)
    (h : s.logEntries = []) :
    (runLogs s ms).logEntries.length ≤ 20 ∧
    (ms.length = 25 → (runLogs s ms).logEntries = (ms.drop 5).reverse) := by
  constructor
  · rcases eq_or_ne ms [] with hms | hms
    · subst hms
      simp [runLogs, h]
    · rw [runLogs_logEntries ms s hms]
      simp [List.length_take]
  · intro h25
    have hne : ms ≠ [] := by
      intro he
      rw [he] at h25
      simp at h25
    rw [runLogs_logEntries ms s hne, h, List.append_nil, List.reverse_drop, h25]

/-- Witness for C6 at 25 concrete messages appended to the initial
(empty-log) state. -/
theorem activityLog_bounded_newest_first_witness :
    (runLogs initialState ((List.range 25).map toString)).logEntries.length ≤ 20 ∧
    (runLogs initialState ((List.range 25).map toString)).logEntries =
      (((List.range 25).map toString).drop 5).reverse :=
  ⟨(activityLog_bounded_newest_first initialState ((List.range 25).map toString) rfl).1,
   (activityLog_bounded_newest_first initialState ((List.range 25).map toString) rfl).2
     (by decide)⟩

/-- C7: connect with an empty transport URI, identity URI or secret only
appends the validation message to the log; every other field of the
state is unchanged and no engine call is made. -/
theorem connect_rejects_empty_credentials (s : DialerState) (ctorOk : Bool)
    (errMessage : String) (newId : Nat)
    (h : s.wsUri = "" ∨ s.sipUri = "" ∨ s.password = "") :
    connect ctorOk errMessage newId s =
      ({ s with logEntries := pushLog "Please provide WebSocket URL, SIP URI, and password." s.logEntries }, []) := by
  rcases h with h | h | h <;> simp [connect, addLog, h]

/-- Witness for C7: connect on the initial state, whose password is empty. -/
theorem connect_rejects_empty_credentials_witness :
    connect true "err" 7 initialState =
      ({ initialState with logEntries := pushLog "Please provide WebSocket URL, SIP URI, and password." initialState.logEntries }, []) :=
  connect_rejects_empty_credentials initialState true "err" 7
    (Or.inr (Or.inr rfl))

/-- C8: dial while the connection is not usable only appends one log
entry and makes no engine call, leaving every other field unchanged;
dial with an empty number likewise makes no engine call and appends one
log entry, leaving call state and session unchanged. -/
theorem dial_rejected_when_unusable_or_empty (s : DialerState) :
    (isConnected s = false →
      dial s = ({ s with logEntries := pushLog "Connect to the SIP server first." s.logEntries }, [])) ∧
    (s.number = "" →
      (dial s).2 = [] ∧
      (dial s).1.callState = s.callState ∧
      (dial s).1.activeSession = s.activeSession ∧
      (dial s).1.status = s.status ∧
      (∃ m, (dial s).1.logEntries = pushLog m s.logEntries)) := by
  constructor
  · intro h
    cases hu : s.uaRef with
    | none => simp [dial, hu, addLog]
    | some u => simp [dial, hu, h, addLog]
  · intro h
    cases hu : s.uaRef with
    | none =>
      refine ⟨?_, ?_, ?_, ?_, "Connect to the SIP server first.", ?_⟩ <;>
        simp [dial, hu, addLog]
    | some u =>
      cases hc : isConnected s with
      | false =>
        refine ⟨?_, ?_, ?_, ?_, "Connect to the SIP server first.", ?_⟩ <;>
          simp [dial, hu, hc, addLog]
      | true =>
        refine ⟨?_, ?_, ?_, ?_, "Enter a destination number.", ?_⟩ <;>
          simp [dial, hu, hc, h, addLog]

/-- Witness for C8 at the initial state, which is disconnected and has an
empty number. -/
theorem dial_rejected_when_unusable_or_empty_witness :
    (dial initialState = ({ initialState with logEntries := pushLog "Connect to the SIP server first." initialState.logEntries }, [])) ∧
    ((dial initialState).2 = [] ∧
     (dial initialState).1.callState = initialState.callState ∧
     (dial initialState).1.activeSession = initialState.activeSession ∧
     (dial initialState).1.status = initialState.status ∧
     (∃ m, (dial initialState).1.logEntries = pushLog m initialState.logEntries)) :=
  ⟨(dial_rejected_when_unusable_or_empty initialState).1 rfl,
   (dial_rejected_when_unusable_or_empty initialState).2 rfl⟩

/-- C9: connect with non-empty credentials performs no check of the
current connection status: for every state, including connected and
registered, it stores a fresh UA handle, overwriting any held one, sets
status to connecting, and issues only the construction and start
requests, never a stop of the previously held handle. -/
theorem connect_ignores_connection_state (s : DialerState) (newId : Nat)
    (errMessage : String) (h1 : s.wsUri ≠ "") (h2 : s.sipUri ≠ "")
    (h3 : s.password ≠ "") :
    (connect true errMessage newId s).1.status = ConnectionStatus.connecting ∧
    (connect true errMessage newId s).1.uaRef = some newId ∧
    (connect true errMessage newId s).2 =
      [EngineCall.mkSocket s.wsUri,
       EngineCall.mkUA s.sipUri s.password s.displayName,
       EngineCall.uaStart newId] ∧
    (∀ u, EngineCall.uaStop u ∉ (connect true errMessage newId s).2) := by
  refine ⟨?_, ?_, ?_, ?_⟩ <;> simp [connect, addLog, h1, h2, h3]

/-- Registered state holding transport handle 1 and session handle 2,
with an in-call call state and a dialled number. -/
def inCallState : DialerState :=
  { initialState with
    password := "pw",
    status := ConnectionStatus.registered,
    callState := CallState.inCall,
    number := "555",
    uaRef := some 1,
    activeSession := some 2 }

/-- Witness for C9: connect while already registered and holding UA
handle 1 still constructs and starts a fresh handle 5 and never stops
handle 1. -/
theorem connect_ignores_connection_state_witness :
    (connect true "err" 5 inCallState).1.status = ConnectionStatus.connecting ∧
    (connect true "err" 5 inCallState).1.uaRef = some 5 ∧
    (connect true "err" 5 inCallState).2 =
      [EngineCall.mkSocket "wss://sip.example.com:7443",
       EngineCall.mkUA "sip:1001@sip.example.com" "pw" "Web Agent",
       EngineCall.uaStart 5] ∧
    EngineCall.uaStop 1 ∉ (connect true "err" 5 inCallState).2 := by
  have h := connect_ignores_connection_state inCallState 5 "err"
    (by decide) (by decide) (by decide)
  exact ⟨h.1, h.2.1, h.2.2.1, h.2.2.2 1⟩

/-- C10: after any keypad press the locally held number has at most 32
characters; a press with the number already at 32 characters leaves it
unchanged; and whenever a session is held the digit is forwarded as
DTMF to the engine. -/
theorem handleKeypad_bounds_number (s : DialerState) (digit : String) :
    (handleKeypad digit s).1.number.length ≤ 32 ∧
    (s.number.length = 32 → (handleKeypad digit s).1.number = s.number) ∧
    (∀ sid, s.activeSession = some sid →
      (handleKeypad digit s).2 = [EngineCall.sendDTMF sid digit]) := by
  refine ⟨?_, ?_, ?_⟩
  · show ((s.number.data ++ digit.data).take 32).length ≤ 32
    exact List.length_take_le 32 _
  · intro h
    apply String.ext
    show (s.number.data ++ digit.data).take 32 = s.number.data
    have hl : s.number.data.length = 32 := h
    rw [List.take_append_eq_append_take, hl]
    simp [hl]
  · intro sid h
    simp [handleKeypad, h]

/-- State holding session handle 3 whose number already has 32
characters. -/
def fullNumberState : DialerState :=
  { inCallState with
    number := "12345678901234567890123456789012",
    activeSession := some 3 }

/-- Witness for C10: pressing digit 5 with a 32-character number and
session 3 held leaves the number unchanged and forwards the DTMF. -/
theorem handleKeypad_bounds_number_witness :
    (handleKeypad "5" fullNumberState).1.number.length ≤ 32 ∧
    (handleKeypad "5" fullNumberState).1.number = fullNumberState.number ∧
    (handleKeypad "5" fullNumberState).2 = [EngineCall.sendDTMF 3 "5"] := by
  have h := handleKeypad_bounds_number fullNumberState "5"
  exact ⟨h.1, h.2.1 (by decide), h.2.2 3 rfl⟩

/-- C1 counterexample: from call state in-call, with a registered (hence
usable) connection and a non-empty number, dial issues the outbound call
request to the engine instead of being rejected. -/
theorem dial_during_call_contacts_engine_cex :
    inCallState.callState = CallState.inCall ∧
    isConnected inCallState = true ∧
    (dial inCallState).2 = [EngineCall.uaCall 1 "555" dialOptions] := by
  refine ⟨rfl, rfl, rfl⟩

/-- C1 amended: dial performs no call-state precondition check at all;
while calling or in-call, with a transport handle, a usable connection
and a non-empty number, dial issues the outbound request to the engine
and leaves the call state unchanged.  Rejection happens only for a
missing transport handle, an unusable connection, or an empty number. -/
theorem dial_no_callState_precondition (s : DialerState) (u : Nat)
    (h1 : s.uaRef = some u) (h2 : isConnected s = true) (h3 : s.number ≠ "")
    (h4 : s.callState = CallState.calling ∨ s.callState = CallState.inCall) :
    (dial s).2 = [EngineCall.uaCall u s.number dialOptions] ∧
    (dial s).1.callState = s.callState := by
  constructor <;> simp [dial, h1, h2, h3, addLog]

/-- Witness for C1 amended at the in-call state. -/
theorem dial_no_callState_precondition_witness :
    (dial inCallState).2 = [EngineCall.uaCall 1 "555" dialOptions] ∧
    (dial inCallState).1.callState = inCallState.callState :=
  dial_no_callState_precondition inCallState 1 rfl rfl (by decide) (Or.inr rfl)

/-- C2 counterexample: a newRTCSession event for session 7 while session
2 is held adopts the new session, overwriting the held handle, instead
of refusing it. -/
theorem newRTCSession_overwrites_cex :
    inCallState.activeSession = some 2 ∧
    (onNewRTCSession 7 inCallState).activeSession = some 7 ∧
    (onNewRTCSession 7 inCallState).activeSession ≠ some 2 := by
  refine ⟨rfl, rfl, by decide⟩

/-- C2 amended: the component stores at most one session handle, in its
single ref cell, but a session arriving while one is held is adopted
rather than refused: the handler unconditionally overwrites the ref with
the new session, and changes no other field and issues no engine call. -/
theorem newRTCSession_adopts_while_held (s : DialerState) (old sid : Nat)
    (h : s.activeSession = some old) :
    (onNewRTCSession sid s).activeSession = some sid ∧
    (onNewRTCSession sid s).callState = s.callState ∧
    (onNewRTCSession sid s).status = s.status ∧
    (onNewRTCSession sid s).logEntries = s.logEntries := by
  exact ⟨rfl, rfl, rfl, rfl⟩

/-- Witness for C2 amended: session 7 arriving while session 2 is held. -/
theorem newRTCSession_adopts_while_held_witness :
    (onNewRTCSession 7 inCallState).activeSession = some 7 ∧
    (onNewRTCSession 7 inCallState).callState = inCallState.callState ∧
    (onNewRTCSession 7 inCallState).status = inCallState.status ∧
    (onNewRTCSession 7 inCallState).logEntries = inCallState.logEntries :=
  newRTCSession_adopts_while_held inCallState 2 7 rfl

/-- C3 counterexample: after the ended event, the failed event, or
hangup on the in-call state holding session 2, the session handle is
still held, not released. -/
theorem terminal_event_keeps_handle_cex :
    inCallState.activeSession = some 2 ∧
    (onSessionEnded inCallState).activeSession = some 2 ∧
    (onSessionFailed none inCallState).activeSession = some 2 ∧
    (hangup inCallState).1.activeSession ≠ none := by
  refine ⟨rfl, rfl, rfl, by decide⟩

/-- C3 amended: on the ended and failed events and on hangup the call
state is updated (terminated, failed, terminated respectively) and
hangup requests termination from the engine, but the session handle is
released on none of these paths: the ref still holds the session, until
a later newRTCSession overwrites it or the component unmounts. -/
theorem terminal_events_do_not_release (s : DialerState) (sid : Nat)
    (cause : Option String) (h : s.activeSession = some sid) :
    (onSessionEnded s).activeSession = some sid ∧
    (onSessionEnded s).callState = CallState.terminated ∧
    (onSessionFailed cause s).activeSession = some sid ∧
    (onSessionFailed cause s).callState = CallState.failed ∧
    (hangup s).1.activeSession = some sid ∧
    (hangup s).1.callState = CallState.terminated ∧
    (hangup s).2 = [EngineCall.terminate sid] := by
  refine ⟨?_, rfl, ?_, rfl, ?_, ?_, ?_⟩ <;>
    simp [onSessionEnded, onSessionFailed, hangup, addLog, h]

/-- Witness for C3 amended at the in-call state holding session 2. -/
theorem terminal_events_do_not_release_witness :
    (onSessionEnded inCallState).activeSession = some 2 ∧
    (onSessionEnded inCallState).callState = CallState.terminated ∧
    (onSessionFailed none inCallState).activeSession = some 2 ∧
    (onSessionFailed none inCallState).callState = CallState.failed ∧
    (hangup inCallState).1.activeSession = some 2 ∧
    (hangup inCallState).1.callState = CallState.terminated ∧
    (hangup inCallState).2 = [EngineCall.terminate 2] :=
  terminal_events_do_not_release inCallState 2 none rfl

/-- Registered state with transport handle 1, a dialled number and no
session: the state from which an outbound dial succeeds. -/
def readyState : DialerState :=
  { initialState with
    password := "pw",
    status := ConnectionStatus.registered,
    number := "555",
    uaRef := some 1 }

/-- C4 counterexample: immediately after a successful dial the call
state is still idle, not calling, and no session handle has been
stored. -/
theorem dial_sets_no_state_cex :
    (dial readyState).2 = [EngineCall.uaCall 1 "555" dialOptions] ∧
    (dial readyState).1.callState = CallState.idle ∧
    (dial readyState).1.callState ≠ CallState.calling ∧
    (dial readyState).1.activeSession = none := by
  refine ⟨rfl, rfl, by decide, rfl⟩

/-- C4 amended: a successful dial requests one outbound session from the
engine with audio-only media, RTCP multiplexing required and the default
public Google STUN resolver, and logs; it does not itself store a
session handle or change the call state — the handle is stored when the
engine fires the newRTCSession event, and the call state becomes calling
on the session progress event. -/
theorem dial_engine_request_policy (s : DialerState) (u : Nat)
    (h1 : s.uaRef = some u) (h2 : isConnected s = true) (h3 : s.number ≠ "") :
    (dial s).2 = [EngineCall.uaCall u s.number dialOptions] ∧
    dialOptions.mediaConstraints = { audio := true, video := false } ∧
    dialOptions.pcConfig =
      { rtcpMuxPolicy := "require",
        iceServers := ["stun:stun.l.google.com:19302"] } ∧
    (dial s).1.activeSession = s.activeSession ∧
    (dial s).1.callState = s.callState ∧
    (∀ sid, (onNewRTCSession sid (dial s).1).activeSession = some sid) ∧
    (onSessionProgress (dial s).1).callState = CallState.calling := by
  refine ⟨?_, rfl, rfl, ?_, ?_, fun sid => rfl, rfl⟩ <;>
    simp [dial, h1, h2, h3, addLog]

/-- Witness for C4 amended at the ready state, dialling 555. -/
theorem dial_engine_request_policy_witness :
    (dial readyState).2 = [EngineCall.uaCall 1 "555" dialOptions] ∧
    (dial readyState).1.activeSession = readyState.activeSession ∧
    (dial readyState).1.callState = readyState.callState ∧
    (onNewRTCSession 9 (dial readyState).1).activeSession = some 9 ∧
    (onSessionProgress (dial readyState).1).callState = CallState.calling := by
  have h := dial_engine_request_policy readyState 1 rfl rfl (by decide)
  exact ⟨h.1, h.2.2.2.1, h.2.2.2.2.1, h.2.2.2.2.2.1 9, h.2.2.2.2.2.2⟩

/-- C5 counterexample: disconnect on the in-call state terminates the
held session but does not release the handle: session 2 is still held
afterwards. -/
theorem disconnect_keeps_session_cex :
    inCallState.activeSession = some 2 ∧
    (disconnect inCallState).1.activeSession = some 2 ∧
    (disconnect inCallState).1.activeSession ≠ none := by
  refine ⟨rfl, rfl, by decide⟩

/-- C5 amended: after disconnect, from any state, the connection state
is disconnected, the call state is terminated and exactly one log entry
is appended; with no transport and no session held it makes no engine
call; a held session receives a terminate request; but neither the
session handle nor the transport handle is released: both refs keep
their previous contents. -/
theorem disconnect_postcondition (s : DialerState) :
    (disconnect s).1.status = ConnectionStatus.disconnected ∧
    (disconnect s).1.callState = CallState.terminated ∧
    (disconnect s).1.logEntries = pushLog "Disconnected from server." s.logEntries ∧
    (disconnect s).1.activeSession = s.activeSession ∧
    (disconnect s).1.uaRef = s.uaRef ∧
    (s.activeSession = none → s.uaRef = none → (disconnect s).2 = []) ∧
    (∀ sid, s.activeSession = some sid →
      EngineCall.terminate sid ∈ (disconnect s).2) := by
  refine ⟨rfl, rfl, rfl, rfl, rfl, ?_, ?_⟩
  · intro h1 h2
    simp [disconnect, h1, h2]
  · intro sid h
    simp [disconnect, h]

/-- Witness for C5 amended, applied at the initial state (no transport,
no session: no engine call) and at the in-call state (session 2 still
held after disconnect, terminate request issued). -/
theorem disconnect_postcondition_witness :
    (disconnect initialState).2 = [] ∧
    (disconnect inCallState).1.status = ConnectionStatus.disconnected ∧
    (disconnect inCallState).1.callState = CallState.terminated ∧
    (disconnect inCallState).1.activeSession = some 2 ∧
    EngineCall.terminate 2 ∈ (disconnect inCallState).2 := by
  have h1 := disconnect_postcondition initialState
  have h2 := disconnect_postcondition inCallState
  exact ⟨h1.2.2.2.2.2.1 rfl rfl, h2.1, h2.2.1, by rw [h2.2.2.2.1]; rfl,
    h2.2.2.2.2.2.2 2 rfl⟩

end WebDialer
